import Mathlib

/-!
Verification of the `subsa` ink! smart contract (src/lib.rs), a single-asset
account-based ledger with opt-in/opt-out subscription, a freeze registry and
role-gated reconfiguration.

Shallow embedding notes:
* `AccountId` (a 32-byte identifier in the source) is modelled as `Nat`;
  the only structure the contract uses is decidable equality and the
  distinguished all-zero sentinel `AccountId::from([0x0; 32])`, modelled
  as `zeroAccount = 0`.
* `Balance` (`u128`) is modelled as `Nat`.  Every subtraction in the source
  is guarded by a balance check, and no operation mints balance, so the
  arithmetic never leaves the `u128` range in any reachable execution
  (see `reachable_balances_zero`); the spec's data model likewise declares
  `balance : uint`.
* The three `Mapping`s are modelled as total functions with the source's
  `get(..).unwrap_or(default)` semantics baked in: an absent key reads the
  default (`0` for balances, `false` for the two flag maps), exactly as
  every read site in the source does.
* Each `#[ink(message)]` takes `&mut self` and returns `Result<(), Error>`;
  an early `return Err(..)` leaves `self` untouched.  We model a message as
  a function `Subsa → args → Subsa × List Event × Except Error Unit`
  returning the post-state, the emitted events, and the result.  The
  host-provided caller identity (`self.env().caller()`) is passed as an
  explicit `caller` argument, and `Self::env().account_id()` as an explicit
  `asset_id` argument to the constructor.
-/

abbrev AccountId := Nat

abbrev AssetId := AccountId

abbrev Balance := Nat

/-- The all-zero sentinel identifier `AccountId::from([0x0; 32])`. -/
def zeroAccount : AccountId := 0

/-- `m.unwrap_or(d)`-style update of a total map: `insert` at one key. -/
def setMap {β : Type} (m : AccountId → β) (k : AccountId) (v : β) : AccountId → β :=
  fun a => if a = k then v else m a

/-- The `Error` enum of src/lib.rs (all twelve declared variants). -/
inductive Error where
  | NotManagerId
  | NotReserveId
  | NotFreezeId
  | NotClawbackId
  | NotOptedIn
  | AlreadyOptedIn
  | NotFrozen
  | NotFreezable
  | AlreadyFrozen
  | FrozenAccount
  | NotEnoughBalance
  | ZeroAmount
  deriving DecidableEq, Repr

/-- The event shapes declared in src/lib.rs.  `Creation`, `Revoke` and
`Destruction` are declared in the source but never emitted. -/
inductive Event where
  | Transfer (sender receiver : AccountId) (asset_id : AssetId) (amount : Option Balance)
  | Creation (asset_id : AssetId) (asset_name : String) (creator : AccountId) (total : Balance)
  | Freeze (asset_id : AssetId) (account freeze_id : AccountId) (freeze : Bool)
  | Modify (manager_id reserve_id freeze_id clawback_id : AccountId)
  | OptIn (asset_id : AssetId) (account : AccountId)
  | OptOut (asset_id : AssetId) (account : AccountId)
  | Revoke (asset_id : AssetId) (from_ clawback : AccountId) (amount : Option Balance)
  | Destruction (asset_id : AssetId) (destroyer : AccountId)
  deriving DecidableEq, Repr

/-- The `#[ink(storage)]` struct `Subsa` of src/lib.rs. -/
structure Subsa where
  asset_id : AssetId
  creator : AccountId
  asset_name : String
  unit_name : String
  total : Balance
  decimals : Nat
  default_frozen : Bool
  url : String
  metadata_hash : Fin 256 × Fin 256 × Fin 256 × Fin 256
  managerId : AccountId
  reserveId : AccountId
  freezeId : AccountId
  clawbackId : AccountId
  balances : AccountId → Balance
  accounts_opted_in : AccountId → Bool
  frozen_holders : AccountId → Bool

/-- The `#[ink(constructor)]` `Subsa::new`.  `caller` is `Self::env().caller()`
and `asset_id` is `Self::env().account_id()`, both host-provided. -/
def Subsa.new (caller : AccountId) (asset_id : AssetId)
    (asset_name unit_name : String) (total : Balance) (decimals : Nat)
    (default_frozen : Bool) (url : String)
    (metadata_hash : Fin 256 × Fin 256 × Fin 256 × Fin 256)
    (manager reserve freeze clawback : Option AccountId) : Subsa :=
  { creator := caller
    asset_name := asset_name
    unit_name := unit_name
    total := total
    decimals := decimals
    default_frozen := default_frozen
    url := url
    metadata_hash := metadata_hash
    asset_id := asset_id
    managerId := manager.getD zeroAccount
    reserveId := reserve.getD zeroAccount
    freezeId := freeze.getD zeroAccount
    clawbackId := clawback.getD zeroAccount
    balances := fun _ => 0
    accounts_opted_in := fun _ => false
    frozen_holders := fun _ => false }

/-- `Subsa::transfer` (src/lib.rs lines 192-223).  Checks, in order:
sender balance ≥ amount, then receiver opted in; then debits the sender,
credits the receiver reading the receiver balance after the debit, and
emits a `Transfer` event. -/
def Subsa.transfer (s : Subsa) (caller : AccountId) (receiver : AccountId)
    (amount : Balance) : Subsa × List Event × Except Error Unit :=
  let sender := caller
  let sender_balance := s.balances sender
  if sender_balance < amount then
    (s, [], .error .NotEnoughBalance)
  else
    let receiver_opted_in := s.accounts_opted_in receiver
    if !receiver_opted_in then
      (s, [], .error .NotOptedIn)
    else
      let s1 : Subsa := { s with balances := setMap s.balances sender (sender_balance - amount) }
      let s2 : Subsa :=
        { s1 with balances := setMap s1.balances receiver (s1.balances receiver + amount) }
      (s2, [Event.Transfer sender receiver s.asset_id (some amount)], .ok ())

/-- `Subsa::opt_in` (src/lib.rs lines 227-246). -/
def Subsa.opt_in (s : Subsa) (caller : AccountId) : Subsa × List Event × Except Error Unit :=
  let caller_opted_in := s.accounts_opted_in caller
  if caller_opted_in then
    (s, [], .error .AlreadyOptedIn)
  else
    ({ s with accounts_opted_in := setMap s.accounts_opted_in caller true },
      [Event.OptIn s.asset_id caller], .ok ())

/-- `Subsa::opt_out` (src/lib.rs lines 250-269). -/
def Subsa.opt_out (s : Subsa) (caller : AccountId) : Subsa × List Event × Except Error Unit :=
  let caller_opted_in := s.accounts_opted_in caller
  if !caller_opted_in then
    (s, [], .error .NotOptedIn)
  else
    ({ s with accounts_opted_in := setMap s.accounts_opted_in caller false },
      [Event.OptOut s.asset_id caller], .ok ())

/-- `Subsa::freeze` (src/lib.rs lines 273-304).  Checks, in order:
`default_frozen` is set, then caller is the freeze authority, then the
target account is not already frozen; then writes the requested flag and
emits a `Freeze` event. -/
def Subsa.freeze (s : Subsa) (caller : AccountId) (account : AccountId)
    (freeze : Bool) : Subsa × List Event × Except Error Unit :=
  if !s.default_frozen then
    (s, [], .error .NotFreezable)
  else if caller ≠ s.freezeId then
    (s, [], .error .NotFreezeId)
  else
    let account_frozen := s.frozen_holders account
    if account_frozen then
      (s, [], .error .AlreadyFrozen)
    else
      ({ s with frozen_holders := setMap s.frozen_holders account freeze },
        [Event.Freeze s.asset_id account s.freezeId freeze], .ok ())

/-- `Subsa::modify_asset` (src/lib.rs lines 312-341). -/
def Subsa.modify_asset (s : Subsa) (caller : AccountId)
    (manager reserve freeze clawback : Option AccountId) :
    Subsa × List Event × Except Error Unit :=
  if caller ≠ s.managerId then
    (s, [], .error .NotManagerId)
  else
    let m := manager.getD zeroAccount
    let r := reserve.getD zeroAccount
    let f := freeze.getD zeroAccount
    let c := clawback.getD zeroAccount
    ({ s with managerId := m, reserveId := r, freezeId := f, clawbackId := c },
      [Event.Modify m r f c], .ok ())

/-- States reachable from a constructor call by any sequence of the five
exposed messages (the post-state of a failed call is the unchanged state). -/
inductive Reachable : Subsa → Prop where
  | new (caller asset_id : AccountId) (an un : String) (total : Balance)
      (dec : Nat) (df : Bool) (url : String)
      (mh : Fin 256 × Fin 256 × Fin 256 × Fin 256)
      (m r f c : Option AccountId) :
      Reachable (Subsa.new caller asset_id an un total dec df url mh m r f c)
  | transfer (s : Subsa) (caller receiver : AccountId) (amount : Balance) :
      Reachable s → Reachable (s.transfer caller receiver amount).1
  | opt_in (s : Subsa) (caller : AccountId) :
      Reachable s → Reachable (s.opt_in caller).1
  | opt_out (s : Subsa) (caller : AccountId) :
      Reachable s → Reachable (s.opt_out caller).1
  | freeze (s : Subsa) (caller account : AccountId) (b : Bool) :
      Reachable s → Reachable (s.freeze caller account b).1
  | modify_asset (s : Subsa) (caller : AccountId) (m r f c : Option AccountId) :
      Reachable s → Reachable (s.modify_asset caller m r f c).1

/-! Concrete states used by the witness theorems. -/

/-- A freezable asset state with: account 5 holding balance 100 and opted in,
account 6 opted in and frozen, account 20 holding balance 50, never opted in
and frozen, freeze authority 12, manager 10. -/
def demoState : Subsa :=
  { Subsa.new 7 1 "asset" "unit" 1000 2 true "url" (0, 0, 0, 0)
      (some 10) (some 11) (some 12) (some 13) with
    balances := setMap (setMap (fun _ => 0) 5 100) 20 50
    accounts_opted_in := setMap (setMap (fun _ => false) 5 true) 6 true
    frozen_holders := setMap (setMap (fun _ => false) 20 true) 6 true }

/-- An asset state constructed with `default_frozen = false` (freeze
authority 12, manager 10). -/
def nonFreezableState : Subsa :=
  Subsa.new 7 1 "asset" "unit" 1000 2 false "url" (0, 0, 0, 0)
    (some 10) (some 11) (some 12) (some 13)


/-- The balances map after a successful transfer: debit written first,
credit reading the receiver balance after the debit (src/lib.rs 207-212). -/
def postTransferBalances (s : Subsa) (caller receiver : AccountId) (amount : Balance) :
    AccountId → Balance :=
  let b1 := setMap s.balances caller (s.balances caller - amount)
  setMap b1 receiver (b1 receiver + amount)

/-- Success normal form of `transfer`: when the balance and opt-in checks
pass, the result is Ok with the debited-then-credited balances map. -/
theorem transfer_ok_eq (s : Subsa) (caller receiver : AccountId) (amount : Balance)
    (hbal : amount ≤ s.balances caller) (hopt : s.accounts_opted_in receiver = true) :
    s.transfer caller receiver amount =
      ({ s with balances := postTransferBalances s caller receiver amount },
        [Event.Transfer caller receiver s.asset_id (some amount)], .ok ()) := by
  simp [Subsa.transfer, postTransferBalances, Nat.not_lt.mpr hbal, hopt]

/-- Claim C1: for distinct accounts A and B, if A holds balance at least
`amount` and B is opted in, then `transfer` called by A with receiver B
returns Ok, debits A by exactly `amount`, credits B by exactly `amount`,
preserves the sum of the two balances, and leaves every other account's
balance unchanged. -/
theorem transfer_moves_balance (s : Subsa) (A B : AccountId) (amount : Balance)
    (hAB : A ≠ B) (hbal : amount ≤ s.balances A)
    (hopt : s.accounts_opted_in B = true) :
    (s.transfer A B amount).2.2 = .ok () ∧
    (s.transfer A B amount).1.balances A + amount = s.balances A ∧
    (s.transfer A B amount).1.balances B = s.balances B + amount ∧
    (s.transfer A B amount).1.balances A + (s.transfer A B amount).1.balances B
      = s.balances A + s.balances B ∧
    ∀ x, x ≠ A → x ≠ B → (s.transfer A B amount).1.balances x = s.balances x := by
  rw [transfer_ok_eq s A B amount hbal hopt]
  refine ⟨rfl, ?_, ?_, ?_, ?_⟩
  · simp [postTransferBalances, setMap, hAB, Ne.symm hAB]
    exact Nat.sub_add_cancel hbal
  · simp [postTransferBalances, setMap, hAB, Ne.symm hAB]
  · simp [postTransferBalances, setMap, hAB, Ne.symm hAB]
    rw [Nat.add_comm (s.balances B) amount, ← Nat.add_assoc, Nat.sub_add_cancel hbal]
  · intro x hxA hxB
    simp [postTransferBalances, setMap, hxA, hxB]

/-- Witness for C1 on `demoState`: account 5 transfers 30 to account 6. -/
theorem transfer_moves_balance_witness :
    (demoState.transfer 5 6 30).2.2 = .ok () ∧
    (demoState.transfer 5 6 30).1.balances 5 + 30 = demoState.balances 5 ∧
    (demoState.transfer 5 6 30).1.balances 6 = demoState.balances 6 + 30 ∧
    (demoState.transfer 5 6 30).1.balances 5 + (demoState.transfer 5 6 30).1.balances 6
      = demoState.balances 5 + demoState.balances 6 ∧
    (demoState.transfer 5 6 30).1.balances 20 = demoState.balances 20 := by
  have h := transfer_moves_balance demoState 5 6 30 (by decide) (by decide) (by decide)
  exact ⟨h.1, h.2.1, h.2.2.1, h.2.2.2.1, h.2.2.2.2 20 (by decide) (by decide)⟩

/-- Claim C2: when the amount exceeds the caller's current balance,
`transfer` returns Err(NotEnoughBalance) and the whole state — every
balance, opted-in flag and frozen flag — is unchanged; since no hypothesis
about the receiver is needed, the balance check precedes the receiver
opt-in check and NotEnoughBalance is returned even when the receiver is
not opted in. -/
theorem transfer_insufficient_balance (s : Subsa) (caller receiver : AccountId)
    (amount : Balance) (h : s.balances caller < amount) :
    s.transfer caller receiver amount = (s, [], .error Error.NotEnoughBalance) := by
  simp [Subsa.transfer, h]

/-- Witness for C2 on `demoState`: account 5 holds 100 and attempts to send
200 to the never-opted-in account 21. -/
theorem transfer_insufficient_balance_witness :
    demoState.transfer 5 21 200 = (demoState, [], .error Error.NotEnoughBalance) ∧
    demoState.accounts_opted_in 21 = false :=
  ⟨transfer_insufficient_balance demoState 5 21 200 (by decide), by decide⟩

/-- Claim C7: `transfer` never returns the ZeroAmount error, and when the
receiver is opted in a transfer of amount 0 succeeds and emits a Transfer
event, because the balance check `sender balance >= 0` always holds. -/
theorem transfer_never_zero_amount (s : Subsa) (caller receiver : AccountId)
    (amount : Balance) :
    (s.transfer caller receiver amount).2.2 ≠ .error Error.ZeroAmount ∧
    (s.accounts_opted_in receiver = true →
      (s.transfer caller receiver 0).2.2 = .ok () ∧
      (s.transfer caller receiver 0).2.1
        = [Event.Transfer caller receiver s.asset_id (some 0)]) := by
  constructor
  · by_cases h1 : s.balances caller < amount
    · simp [Subsa.transfer, h1]
    · by_cases h2 : s.accounts_opted_in receiver
      · simp [Subsa.transfer, h1, h2]
      · simp [Subsa.transfer, h1, h2]
  · intro hopt
    rw [transfer_ok_eq s caller receiver 0 (Nat.zero_le _) hopt]
    exact ⟨rfl, rfl⟩

/-- Witness for C7 on `demoState`: a zero-amount transfer from account 20
to the opted-in account 6. -/
theorem transfer_never_zero_amount_witness :
    (demoState.transfer 20 6 0).2.2 ≠ .error Error.ZeroAmount ∧
    (demoState.transfer 20 6 0).2.2 = .ok () ∧
    (demoState.transfer 20 6 0).2.1 = [Event.Transfer 20 6 demoState.asset_id (some 0)] :=
  ⟨(transfer_never_zero_amount demoState 20 6 0).1,
    (transfer_never_zero_amount demoState 20 6 0).2 (by decide)⟩

/-- Claim C8: self-transfer is a no-op on the ledger: when the caller is
opted in and holds at least `amount`, `transfer` with receiver equal to the
caller returns Ok and every balance — the caller's included — is unchanged,
because the credit reads the balance written by the debit. -/
theorem transfer_self_noop (s : Subsa) (caller : AccountId) (amount : Balance)
    (hopt : s.accounts_opted_in caller = true) (hbal : amount ≤ s.balances caller) :
    (s.transfer caller caller amount).2.2 = .ok () ∧
    (s.transfer caller caller amount).1.balances caller = s.balances caller ∧
    ∀ x, (s.transfer caller caller amount).1.balances x = s.balances x := by
  rw [transfer_ok_eq s caller caller amount hbal hopt]
  refine ⟨rfl, ?_, ?_⟩
  · simp [postTransferBalances, setMap]
    exact Nat.sub_add_cancel hbal
  · intro x
    by_cases hx : x = caller
    · subst hx
      simp [postTransferBalances, setMap]
      exact Nat.sub_add_cancel hbal
    · simp [postTransferBalances, setMap, hx]

/-- Witness for C8 on `demoState`: account 5 (opted in, balance 100)
transfers 40 to itself. -/
theorem transfer_self_noop_witness :
    (demoState.transfer 5 5 40).2.2 = .ok () ∧
    (demoState.transfer 5 5 40).1.balances 5 = demoState.balances 5 ∧
    (demoState.transfer 5 5 40).1.balances 20 = demoState.balances 20 := by
  have h := transfer_self_noop demoState 5 40 (by decide) (by decide)
  exact ⟨h.1, h.2.1, h.2.2 20⟩

/-- Claim C10: `transfer` imposes no opt-in or frozen-status requirement on
the sender: whenever the caller holds at least `amount` and the receiver is
opted in, the call returns Ok — no hypothesis about the caller's opted-in
flag or about either frozen flag is needed. -/
theorem transfer_ignores_sender_status (s : Subsa) (caller receiver : AccountId)
    (amount : Balance) (hbal : amount ≤ s.balances caller)
    (hopt : s.accounts_opted_in receiver = true) :
    (s.transfer caller receiver amount).2.2 = .ok () := by
  rw [transfer_ok_eq s caller receiver amount hbal hopt]

/-- Witness for C10 on `demoState`: account 20 has never opted in and is
frozen, the receiver 6 is frozen, and the transfer still succeeds. -/
theorem transfer_ignores_sender_status_witness :
    demoState.accounts_opted_in 20 = false ∧
    demoState.frozen_holders 20 = true ∧
    demoState.frozen_holders 6 = true ∧
    (demoState.transfer 20 6 50).2.2 = .ok () :=
  ⟨by decide, by decide, by decide,
    transfer_ignores_sender_status demoState 20 6 50 (by decide) (by decide)⟩

/-- Counterexample to claim C3 as stated: on `nonFreezableState`
(constructed with `default_frozen = false`, freeze authority 12) the
non-authority caller 99 gets Err(NotFreezable), not Err(NotFreezeId) —
the default-frozen policy gate is checked before authorization. -/
theorem freeze_auth_order_counterexample :
    (99 : AccountId) ≠ nonFreezableState.freezeId ∧
    nonFreezableState.default_frozen = false ∧
    nonFreezableState.freeze 99 5 true
      = (nonFreezableState, [], .error Error.NotFreezable) ∧
    Error.NotFreezable ≠ Error.NotFreezeId :=
  ⟨by decide, by decide, rfl, by decide⟩

/-- Claim C3 amended: `freeze` checks the default-frozen policy gate before
authorization. When `default_frozen` is true, a caller that is not the
freeze authority gets Err(NotFreezeId) regardless of the target account's
frozen flag, with the state unchanged; when `default_frozen` is false the
call fails with Err(NotFreezable) regardless of the caller, also leaving
the state unchanged. -/
theorem freeze_policy_gate_before_auth (s : Subsa) (caller account : AccountId)
    (b : Bool) :
    (s.default_frozen = true → caller ≠ s.freezeId →
      s.freeze caller account b = (s, [], .error Error.NotFreezeId)) ∧
    (s.default_frozen = false →
      s.freeze caller account b = (s, [], .error Error.NotFreezable)) := by
  constructor
  · intro hdf hc
    simp [Subsa.freeze, hdf, hc]
  · intro hdf
    simp [Subsa.freeze, hdf]

/-- Witness for the amended C3: on `demoState` (freezable) the
non-authority caller 99 gets NotFreezeId even though target 6 is frozen;
on `nonFreezableState` the same call gets NotFreezable. -/
theorem freeze_policy_gate_before_auth_witness :
    demoState.freeze 99 6 true = (demoState, [], .error Error.NotFreezeId) ∧
    nonFreezableState.freeze 99 6 true
      = (nonFreezableState, [], .error Error.NotFreezable) :=
  ⟨(freeze_policy_gate_before_auth demoState 99 6 true).1 (by decide) (by decide),
    (freeze_policy_gate_before_auth nonFreezableState 99 6 true).2 (by decide)⟩

/-- Claim C4: the AlreadyFrozen guard is keyed on the target's current
flag, not on the requested value: on a freezable asset the freeze
authority can freeze a not-yet-frozen account X (Ok, flag set true, Freeze
event with freeze = true), and a subsequent freeze(X, false) by the same
authority fails with AlreadyFrozen, leaving X's flag true. -/
theorem freeze_guard_asymmetric (s : Subsa) (X : AccountId)
    (hdf : s.default_frozen = true) (hX : s.frozen_holders X = false) :
    (s.freeze s.freezeId X true).2.2 = .ok () ∧
    (s.freeze s.freezeId X true).1.frozen_holders X = true ∧
    (s.freeze s.freezeId X true).2.1 = [Event.Freeze s.asset_id X s.freezeId true] ∧
    ((s.freeze s.freezeId X true).1.freeze s.freezeId X false).2.2
      = .error Error.AlreadyFrozen ∧
    ((s.freeze s.freezeId X true).1.freeze s.freezeId X false).1.frozen_holders X
      = true := by
  have h1 : s.freeze s.freezeId X true
      = ({ s with frozen_holders := setMap s.frozen_holders X true },
          [Event.Freeze s.asset_id X s.freezeId true], .ok ()) := by
    simp [Subsa.freeze, hdf, hX]
  refine ⟨by rw [h1], ?_, by rw [h1], ?_, ?_⟩
  · rw [h1]
    simp [setMap]
  · rw [h1]
    simp [Subsa.freeze, hdf, setMap]
  · rw [h1]
    simp [Subsa.freeze, hdf, setMap]

/-- Witness for C4 on `demoState`: the freeze authority 12 freezes the
not-yet-frozen account 9, then fails to unfreeze it. -/
theorem freeze_guard_asymmetric_witness :
    (demoState.freeze demoState.freezeId 9 true).2.2 = .ok () ∧
    (demoState.freeze demoState.freezeId 9 true).1.frozen_holders 9 = true ∧
    (demoState.freeze demoState.freezeId 9 true).2.1
      = [Event.Freeze demoState.asset_id 9 demoState.freezeId true] ∧
    ((demoState.freeze demoState.freezeId 9 true).1.freeze demoState.freezeId 9 false).2.2
      = .error Error.AlreadyFrozen ∧
    ((demoState.freeze demoState.freezeId 9 true).1.freeze demoState.freezeId 9 false).1.frozen_holders 9
      = true :=
  freeze_guard_asymmetric demoState 9 (by decide) (by decide)

/-- Claim C9: a no-op unfreeze request passes the guards: on a freezable
asset, freeze(account, false) by the freeze authority on an account whose
frozen flag is false returns Ok, writes false to the flag, and emits a
Freeze event with freeze = false. -/
theorem freeze_false_on_unfrozen (s : Subsa) (account : AccountId)
    (hdf : s.default_frozen = true) (hfr : s.frozen_holders account = false) :
    (s.freeze s.freezeId account false).2.2 = .ok () ∧
    (s.freeze s.freezeId account false).1.frozen_holders account = false ∧
    (s.freeze s.freezeId account false).2.1
      = [Event.Freeze s.asset_id account s.freezeId false] := by
  have h1 : s.freeze s.freezeId account false
      = ({ s with frozen_holders := setMap s.frozen_holders account false },
          [Event.Freeze s.asset_id account s.freezeId false], .ok ()) := by
    simp [Subsa.freeze, hdf, hfr]
  refine ⟨by rw [h1], ?_, by rw [h1]⟩
  rw [h1]
  simp [setMap]

/-- Witness for C9 on `demoState`: the freeze authority 12 issues a no-op
unfreeze of the never-frozen account 9. -/
theorem freeze_false_on_unfrozen_witness :
    (demoState.freeze demoState.freezeId 9 false).2.2 = .ok () ∧
    (demoState.freeze demoState.freezeId 9 false).1.frozen_holders 9 = false ∧
    (demoState.freeze demoState.freezeId 9 false).2.1
      = [Event.Freeze demoState.asset_id 9 demoState.freezeId false] :=
  freeze_false_on_unfrozen demoState 9 (by decide) (by decide)

/-- Claim C5: `modify_asset` is a wholesale replace: when the caller is the
current manager it returns Ok and sets each of the four role fields to the
provided value, or to the all-zero sentinel when the argument is absent; in
particular all-absent arguments clear all four roles to the sentinel. -/
theorem modify_asset_wholesale_replace (s : Subsa) (caller : AccountId)
    (m r f c : Option AccountId) (h : caller = s.managerId) :
    (s.modify_asset caller m r f c).2.2 = .ok () ∧
    (s.modify_asset caller m r f c).1.managerId = m.getD zeroAccount ∧
    (s.modify_asset caller m r f c).1.reserveId = r.getD zeroAccount ∧
    (s.modify_asset caller m r f c).1.freezeId = f.getD zeroAccount ∧
    (s.modify_asset caller m r f c).1.clawbackId = c.getD zeroAccount := by
  subst h
  simp [Subsa.modify_asset]

/-- Witness for C5 on `demoState`: the manager 10 calls with all four
arguments absent and all four roles become the sentinel 0. -/
theorem modify_asset_wholesale_replace_witness :
    (demoState.modify_asset 10 none none none none).2.2 = .ok () ∧
    (demoState.modify_asset 10 none none none none).1.managerId = zeroAccount ∧
    (demoState.modify_asset 10 none none none none).1.reserveId = zeroAccount ∧
    (demoState.modify_asset 10 none none none none).1.freezeId = zeroAccount ∧
    (demoState.modify_asset 10 none none none none).1.clawbackId = zeroAccount :=
  modify_asset_wholesale_replace demoState 10 none none none none (by decide)

/-- Claim C6: in every state reachable from construction by any sequence of
the exposed operations, every account's balance is zero — construction
credits no balance and no exposed operation can create balance. -/
theorem reachable_balances_zero (s : Subsa) (h : Reachable s) :
    ∀ a, s.balances a = 0 := by
  induction h with
  | new caller asset_id an un total dec df url mh m r f c =>
      intro a
      rfl
  | transfer s caller receiver amount hr ih =>
      intro a
      by_cases h1 : s.balances caller < amount
      · simp [Subsa.transfer, h1, ih a]
      · by_cases h2 : s.accounts_opted_in receiver = true
        · have hb0 : s.balances caller = 0 := ih caller
          have ha0 : amount = 0 := Nat.le_zero.mp (hb0 ▸ Nat.not_lt.mp h1)
          subst ha0
          rw [transfer_ok_eq s caller receiver 0 (Nat.zero_le _) h2]
          simp [postTransferBalances, setMap, ih]
        · simp [Subsa.transfer, h1, h2, ih a]
  | opt_in s caller hr ih =>
      intro a
      by_cases h1 : s.accounts_opted_in caller = true <;>
        simp [Subsa.opt_in, h1, ih a]
  | opt_out s caller hr ih =>
      intro a
      by_cases h1 : s.accounts_opted_in caller = true <;>
        simp [Subsa.opt_out, h1, ih a]
  | freeze s caller account b hr ih =>
      intro a
      by_cases h1 : s.default_frozen = true <;>
        by_cases h2 : caller = s.freezeId <;>
          by_cases h3 : s.frozen_holders account = true <;>
            simp [Subsa.freeze, h1, h2, h3, ih a]
  | modify_asset s caller m r f c hr ih =>
      intro a
      by_cases h1 : caller = s.managerId <;>
        simp [Subsa.modify_asset, h1, ih a]

/-- Witness for C6: a state built by construction followed by an opt-in is
reachable, and account 5's balance there is zero. -/
theorem reachable_balances_zero_witness :
    (((Subsa.new 7 1 "asset" "unit" 1000 2 true "url" (0, 0, 0, 0)
        (some 10) (some 11) (some 12) (some 13)).opt_in 5).1).balances 5 = 0 :=
  reachable_balances_zero _
    (Reachable.opt_in _ 5
      (Reachable.new 7 1 "asset" "unit" 1000 2 true "url" (0, 0, 0, 0)
        (some 10) (some 11) (some 12) (some 13))) 5
